import Mathlib

/-!
A shallow embedding of the `ecological` configuration library
(`ecological/config.py`): Python-style values, the declared-type universe
handled by `cast`, the `ast.literal_eval` structured-literal parser, the
`Variable` descriptor with its `get` resolution step, the `_Options`
metaclass-keyword bundle, and the `Config.load` resolution pass.
Machine-checked statements about the claims of the specification follow
the definitions.
-/

namespace Ecological

/-- Character constants used by the value printer and the literal parser. -/
def quoteChar : Char := Char.ofNat 39

def dquoteChar : Char := Char.ofNat 34

def lbraceChar : Char := Char.ofNat 123

def rbraceChar : Char := Char.ofNat 125

/-- Python runtime values, as far as the library manipulates them: the
results of `ast.literal_eval`, the constructors in
`TYPES_THAT_NEED_TO_BE_PARSED`, source-mapping values (`str`/`bytes`),
defaults, and the `_NO_DEFAULT` sentinel object (a unique object compared
with `is`, modelled as its own constructor). -/
inductive PyVal where
  | str (s : String)
  | bytes (s : String)
  | bool (b : Bool)
  | int (n : Int)
  | list (xs : List PyVal)
  | tuple (xs : List PyVal)
  | set (xs : List PyVal)
  | frozenset (xs : List PyVal)
  | dict (xs : List (PyVal × PyVal))
  | counter (xs : List (PyVal × PyVal))
  | deque (xs : List PyVal)
  | pyNone
  | noDefault

/-- The exception kinds the library raises or handles: `ValueError` and
`SyntaxError` (caught by `Variable.get`), `TypeError` (raised by some
constructors and by `object.__init_subclass__`), and `AttributeError`
(raised for required-and-missing variables). -/
inductive PyError where
  | valueError (msg : String)
  | syntaxError (msg : String)
  | typeError (msg : String)
  | attributeError (msg : String)
  deriving Repr, DecidableEq

/-- The declared-type universe `cast` dispatches over: the concrete types of
`TYPES_THAT_NEED_TO_BE_PARSED` and the scalar constructors, the `typing`
aliases of `TYPING_TO_REGULAR_TYPE` (`AnyStr`, `ByteString`, `Counter`,
`Deque`, `Dict`, `FrozenSet`, `List`, `Set`, `Tuple`), subscripted generics
carrying an `__origin__` (for example `List[int]`, whose origin is `list`),
and `NewType` aliases carrying a `__supertype__`. -/
inductive PyType where
  | bool
  | int
  | str
  | bytes
  | list
  | set
  | tuple
  | dict
  | frozenset
  | counterType
  | dequeType
  | anyStr
  | byteString
  | typingList
  | typingSet
  | typingTuple
  | typingDict
  | typingFrozenSet
  | typingCounter
  | typingDeque
  | generic (origin : PyType)
  | newtype (name : String) (supertype : PyType)
  deriving Repr, DecidableEq

mutual

/-- Structural equality on values, mirroring Python `==` on the value
domain above (used for `set`/`dict` deduplication). -/
def pvBeq : PyVal → PyVal → Bool
  | .str a, .str b => a == b
  | .bytes a, .bytes b => a == b
  | .bool a, .bool b => a == b
  | .int a, .int b => a == b
  | .list a, .list b => pvListBeq a b
  | .tuple a, .tuple b => pvListBeq a b
  | .set a, .set b => pvListBeq a b
  | .frozenset a, .frozenset b => pvListBeq a b
  | .deque a, .deque b => pvListBeq a b
  | .dict a, .dict b => pvPairsBeq a b
  | .counter a, .counter b => pvPairsBeq a b
  | .pyNone, .pyNone => true
  | .noDefault, .noDefault => true
  | _, _ => false

def pvListBeq : List PyVal → List PyVal → Bool
  | [], [] => true
  | a :: as, b :: bs => pvBeq a b && pvListBeq as bs
  | _, _ => false

def pvPairsBeq : List (PyVal × PyVal) → List (PyVal × PyVal) → Bool
  | [], [] => true
  | (k1, v1) :: as, (k2, v2) :: bs => pvBeq k1 k2 && pvBeq v1 v2 && pvPairsBeq as bs
  | _, _ => false

end

instance : BEq PyVal := ⟨pvBeq⟩

/-- Python truthiness, used by the `bool` constructor. -/
def truthy : PyVal → Bool
  | .str s => !s.isEmpty
  | .bytes s => !s.isEmpty
  | .bool b => b
  | .int n => n != 0
  | .list xs => !xs.isEmpty
  | .tuple xs => !xs.isEmpty
  | .set xs => !xs.isEmpty
  | .frozenset xs => !xs.isEmpty
  | .deque xs => !xs.isEmpty
  | .dict xs => !xs.isEmpty
  | .counter xs => !xs.isEmpty
  | .pyNone => false
  | .noDefault => true

/-- The runtime type name of a value, for error messages. -/
def typeNameOfVal : PyVal → String
  | .str _ => "str"
  | .bytes _ => "bytes"
  | .bool _ => "bool"
  | .int _ => "int"
  | .list _ => "list"
  | .tuple _ => "tuple"
  | .set _ => "set"
  | .frozenset _ => "frozenset"
  | .dict _ => "dict"
  | .counter _ => "Counter"
  | .deque _ => "deque"
  | .pyNone => "NoneType"
  | .noDefault => "object"

mutual

/-- Python `repr` of a value (element rendering inside containers). String
escaping is not modelled; strings are rendered between single quotes. -/
def pyRepr : PyVal → String
  | .str s => String.mk [quoteChar] ++ s ++ String.mk [quoteChar]
  | .bytes s => "b" ++ String.mk [quoteChar] ++ s ++ String.mk [quoteChar]
  | .bool b => if b then "True" else "False"
  | .int n => toString n
  | .list xs => "[" ++ pyReprList xs ++ "]"
  | .tuple xs =>
    match xs with
    | [x] => "(" ++ pyRepr x ++ ",)"
    | xs => "(" ++ pyReprList xs ++ ")"
  | .set xs => String.mk [lbraceChar] ++ pyReprList xs ++ String.mk [rbraceChar]
  | .frozenset xs => "frozenset(" ++ String.mk [lbraceChar] ++ pyReprList xs ++ String.mk [rbraceChar] ++ ")"
  | .deque xs => "deque([" ++ pyReprList xs ++ "])"
  | .dict xs => String.mk [lbraceChar] ++ pyReprPairs xs ++ String.mk [rbraceChar]
  | .counter xs => "Counter(" ++ String.mk [lbraceChar] ++ pyReprPairs xs ++ String.mk [rbraceChar] ++ ")"
  | .pyNone => "None"
  | .noDefault => "NO_DEFAULT"

def pyReprList : List PyVal → String
  | [] => ""
  | [x] => pyRepr x
  | x :: xs => pyRepr x ++ ", " ++ pyReprList xs

def pyReprPairs : List (PyVal × PyVal) → String
  | [] => ""
  | [(k, v)] => pyRepr k ++ ": " ++ pyRepr v
  | (k, v) :: xs => pyRepr k ++ ": " ++ pyRepr v ++ ", " ++ pyReprPairs xs

end

/-- Python `str` of a value: identity on strings, `repr` otherwise. -/
def pyStrOf : PyVal → String
  | .str s => s
  | v => pyRepr v

/-- Whitespace skipping for the literal parser and `int` parsing. -/
def skipWs : List Char → List Char
  | [] => []
  | c :: cs =>
    if c = ' ' ∨ c = Char.ofNat 9 ∨ c = Char.ofNat 10 ∨ c = Char.ofNat 13 then skipWs cs
    else c :: cs

/-- Strips the literal `lit` from the front of `cs`, returning the rest. -/
def stripLitChars : List Char → List Char → Option (List Char)
  | [], cs => Option.some cs
  | _ :: _, [] => Option.none
  | l :: ls, c :: cs => if c = l then stripLitChars ls cs else Option.none

/-- The value of a digit run. -/
def digitsVal (cs : List Char) : Nat :=
  cs.foldl (fun acc c => acc * 10 + (c.toNat - 48)) 0

/-- Splits a leading digit run off a character list. -/
def takeDigits : List Char → List Char × List Char
  | [] => ([], [])
  | c :: cs =>
    if c.isDigit then
      let r := takeDigits cs
      (c :: r.1, r.2)
    else ([], c :: cs)

/-- Scans up to the closing quote `q` (escape sequences are not
modelled). -/
def takeUntilChar (q : Char) : List Char → Option (List Char × List Char)
  | [] => Option.none
  | c :: cs =>
    if c = q then Option.some ([], cs)
    else
      match takeUntilChar q cs with
      | Option.some (s, rest) => Option.some (c :: s, rest)
      | Option.none => Option.none

/-- First-occurrence deduplication, mirroring `set` construction. -/
def pvDedupAux : List PyVal → List PyVal → List PyVal
  | _, [] => []
  | seen, x :: xs =>
    if seen.any (fun y => pvBeq y x) then pvDedupAux seen xs
    else x :: pvDedupAux (x :: seen) xs

def pvDedup (xs : List PyVal) : List PyVal := pvDedupAux [] xs

/-- Inserts a key/value pair into an association list the way a Python
`dict` does: a repeated key overwrites in place, a new key appends. -/
def dictUpdate (kvs : List (PyVal × PyVal)) (k v : PyVal) : List (PyVal × PyVal) :=
  if kvs.any (fun kv => pvBeq kv.1 k) then
    kvs.map (fun kv => if pvBeq kv.1 k then (kv.1, v) else kv)
  else
    kvs ++ [(k, v)]

mutual

/-- One literal expression, in the grammar `ast.literal_eval` accepts for
the inputs this library meets: `True` / `False` / `None`, signed integers,
quoted strings, lists, tuples (a parenthesised single expression without a
comma is not a tuple), dicts and sets. The fuel argument only bounds the
recursion; `literal_eval` below supplies more than any input can use. -/
def parseVal : Nat → List Char → Except PyError (PyVal × List Char)
  | 0, _ => Except.error (PyError.syntaxError "invalid syntax")
  | fuel + 1, cs0 =>
    let cs := skipWs cs0
    match stripLitChars "True".data cs with
    | Option.some rest => Except.ok (PyVal.bool true, rest)
    | Option.none =>
    match stripLitChars "False".data cs with
    | Option.some rest => Except.ok (PyVal.bool false, rest)
    | Option.none =>
    match stripLitChars "None".data cs with
    | Option.some rest => Except.ok (PyVal.pyNone, rest)
    | Option.none =>
    match cs with
    | [] => Except.error (PyError.syntaxError "unexpected end of source")
    | c :: rest =>
      if c = quoteChar ∨ c = dquoteChar then
        match takeUntilChar c rest with
        | Option.some (s, rest2) => Except.ok (PyVal.str (String.mk s), rest2)
        | Option.none => Except.error (PyError.syntaxError "unterminated string literal")
      else if c = '-' ∨ c = '+' ∨ c.isDigit then
        let body := if c.isDigit then c :: rest else skipWs rest
        let d := takeDigits body
        if d.1.isEmpty then Except.error (PyError.syntaxError "invalid syntax")
        else
          let n : Int := Int.ofNat (digitsVal d.1)
          Except.ok (PyVal.int (if c = '-' then -n else n), d.2)
      else if c = '[' then
        match parseElems fuel ']' rest with
        | Except.ok (es, _, rest2) => Except.ok (PyVal.list es, rest2)
        | Except.error e => Except.error e
      else if c = '(' then
        match parseElems fuel ')' rest with
        | Except.ok (es, sawComma, rest2) =>
          match es, sawComma with
          | [single], false => Except.ok (single, rest2)
          | es, _ => Except.ok (PyVal.tuple es, rest2)
        | Except.error e => Except.error e
      else if c = lbraceChar then
        parseBrace fuel rest
      else
        Except.error (PyError.syntaxError "invalid syntax")

/-- Elements of a bracketed sequence, up to the closing character; the
middle component records whether a comma was seen (to distinguish `(x)`
from `(x,)`). -/
def parseElems : Nat → Char → List Char → Except PyError (List PyVal × Bool × List Char)
  | 0, _, _ => Except.error (PyError.syntaxError "invalid syntax")
  | fuel + 1, close, cs0 =>
    let cs := skipWs cs0
    match cs with
    | [] => Except.error (PyError.syntaxError "unexpected end of source")
    | c :: rest =>
      if c = close then Except.ok ([], false, rest)
      else
        match parseVal fuel cs with
        | Except.ok (v, rest2) =>
          match parseElemsRest fuel close rest2 with
          | Except.ok (es, sawComma, rest3) => Except.ok (v :: es, sawComma, rest3)
          | Except.error e => Except.error e
        | Except.error e => Except.error e

/-- After one element: either the closing character, or a comma followed by
more elements (trailing commas allowed). -/
def parseElemsRest : Nat → Char → List Char → Except PyError (List PyVal × Bool × List Char)
  | 0, _, _ => Except.error (PyError.syntaxError "invalid syntax")
  | fuel + 1, close, cs0 =>
    let cs := skipWs cs0
    match cs with
    | [] => Except.error (PyError.syntaxError "unexpected end of source")
    | c :: rest =>
      if c = close then Except.ok ([], false, rest)
      else if c = ',' then
        let cs2 := skipWs rest
        match cs2 with
        | c2 :: rest2 =>
          if c2 = close then Except.ok ([], true, rest2)
          else
            match parseVal fuel cs2 with
            | Except.ok (v, rest3) =>
              match parseElemsRest fuel close rest3 with
              | Except.ok (es, _, rest4) => Except.ok (v :: es, true, rest4)
              | Except.error e => Except.error e
            | Except.error e => Except.error e
        | [] => Except.error (PyError.syntaxError "unexpected end of source")
      else Except.error (PyError.syntaxError "invalid syntax")

/-- After an opening brace: an empty dict, a dict display, or a set
display. -/
def parseBrace : Nat → List Char → Except PyError (PyVal × List Char)
  | 0, _ => Except.error (PyError.syntaxError "invalid syntax")
  | fuel + 1, cs0 =>
    let cs := skipWs cs0
    match cs with
    | [] => Except.error (PyError.syntaxError "unexpected end of source")
    | c :: rest =>
      if c = rbraceChar then Except.ok (PyVal.dict [], rest)
      else
        match parseVal fuel cs with
        | Except.ok (k, rest2) =>
          let cs2 := skipWs rest2
          match cs2 with
          | c2 :: rest3 =>
            if c2 = ':' then
              match parseVal fuel rest3 with
              | Except.ok (v, rest4) =>
                match parseDictRest fuel rest4 with
                | Except.ok (kvs, rest5) =>
                  Except.ok (PyVal.dict (kvs.foldl (fun acc kv => dictUpdate acc kv.1 kv.2) (dictUpdate [] k v)), rest5)
                | Except.error e => Except.error e
              | Except.error e => Except.error e
            else
              match parseElemsRest fuel rbraceChar cs2 with
              | Except.ok (es, _, rest4) => Except.ok (PyVal.set (pvDedup (k :: es)), rest4)
              | Except.error e => Except.error e
          | [] => Except.error (PyError.syntaxError "unexpected end of source")
        | Except.error e => Except.error e

/-- After one dict entry: the closing brace, or a comma and more
`key : value` entries. -/
def parseDictRest : Nat → List Char → Except PyError (List (PyVal × PyVal) × List Char)
  | 0, _ => Except.error (PyError.syntaxError "invalid syntax")
  | fuel + 1, cs0 =>
    let cs := skipWs cs0
    match cs with
    | [] => Except.error (PyError.syntaxError "unexpected end of source")
    | c :: rest =>
      if c = rbraceChar then Except.ok ([], rest)
      else if c = ',' then
        let cs2 := skipWs rest
        match cs2 with
        | c2 :: rest2 =>
          if c2 = rbraceChar then Except.ok ([], rest2)
          else
            match parseVal fuel cs2 with
            | Except.ok (k, rest3) =>
              let cs3 := skipWs rest3
              match cs3 with
              | c3 :: rest4 =>
                if c3 = ':' then
                  match parseVal fuel rest4 with
                  | Except.ok (v, rest5) =>
                    match parseDictRest fuel rest5 with
                    | Except.ok (kvs, rest6) => Except.ok ((k, v) :: kvs, rest6)
                    | Except.error e => Except.error e
                  | Except.error e => Except.error e
                else Except.error (PyError.syntaxError "invalid syntax")
              | [] => Except.error (PyError.syntaxError "unexpected end of source")
            | Except.error e => Except.error e
        | [] => Except.error (PyError.syntaxError "unexpected end of source")
      else Except.error (PyError.syntaxError "invalid syntax")

end

/-- Models `ast.literal_eval`: parses the whole text as one literal expression.
Parse failures are reported as `SyntaxError`/`ValueError` by `ast`; both
are caught identically downstream, so the model reports `SyntaxError`. -/
def literal_eval (s : String) : Except PyError PyVal :=
  match parseVal (s.length * 2 + 16) s.data with
  | Except.ok (v, rest) =>
    if (skipWs rest).isEmpty then Except.ok v
    else Except.error (PyError.syntaxError "invalid syntax")
  | Except.error e => Except.error e

/-- Python iteration: the element sequence of a value, or `Option.none`
for non-iterable values. Iterating a `str` yields its characters, a
`bytes` its integer bytes, a mapping its keys. -/
def iterElems : PyVal → Option (List PyVal)
  | .list xs => Option.some xs
  | .tuple xs => Option.some xs
  | .set xs => Option.some xs
  | .frozenset xs => Option.some xs
  | .deque xs => Option.some xs
  | .str s => Option.some (s.data.map (fun c => PyVal.str (String.mk [c])))
  | .bytes s => Option.some (s.data.map (fun c => PyVal.int (Int.ofNat c.toNat)))
  | .dict kvs => Option.some (kvs.map Prod.fst)
  | .counter kvs => Option.some (kvs.map Prod.fst)
  | .bool _ => Option.none
  | .int _ => Option.none
  | .pyNone => Option.none
  | .noDefault => Option.none

/-- Parsing for `int(s)` on text: optional surrounding whitespace, an optional sign,
then a nonempty digit run. -/
def parseIntPy (s : String) : Option Int :=
  let cs := skipWs s.data
  let core := (skipWs cs.reverse).reverse
  match core with
  | '-' :: ds =>
    if !ds.isEmpty && ds.all Char.isDigit then Option.some (-(Int.ofNat (digitsVal ds)))
    else Option.none
  | '+' :: ds =>
    if !ds.isEmpty && ds.all Char.isDigit then Option.some (Int.ofNat (digitsVal ds))
    else Option.none
  | ds =>
    if !ds.isEmpty && ds.all Char.isDigit then Option.some (Int.ofNat (digitsVal ds))
    else Option.none

/-- The `int` constructor on a value. -/
def intCtor : PyVal → Except PyError PyVal
  | .str s =>
    match parseIntPy s with
    | Option.some n => Except.ok (PyVal.int n)
    | Option.none => Except.error (PyError.valueError ("invalid literal for int with base 10: " ++ s))
  | .bytes s =>
    match parseIntPy s with
    | Option.some n => Except.ok (PyVal.int n)
    | Option.none => Except.error (PyError.valueError ("invalid literal for int with base 10: " ++ s))
  | .bool b => Except.ok (PyVal.int (if b then 1 else 0))
  | .int n => Except.ok (PyVal.int n)
  | v => Except.error (PyError.typeError ("int argument must be a string, a bytes-like object or a number, not " ++ typeNameOfVal v))

/-- Builds a byte string from an iterable of ints in `range(0, 256)`. -/
def bytesFromInts : List PyVal → Except PyError String
  | [] => Except.ok ""
  | PyVal.int n :: xs =>
    if 0 ≤ n ∧ n < 256 then
      match bytesFromInts xs with
      | Except.ok s => Except.ok (String.mk [Char.ofNat n.toNat] ++ s)
      | Except.error e => Except.error e
    else Except.error (PyError.valueError "bytes must be in range(0, 256)")
  | v :: _ => Except.error (PyError.typeError (typeNameOfVal v ++ " cannot be interpreted as an integer"))

/-- The `bytes` constructor on a value. Calling it on a plain string
(without an encoding argument) is a `TypeError` in Python. -/
def bytesCtor : PyVal → Except PyError PyVal
  | .str _ => Except.error (PyError.typeError "string argument without an encoding")
  | .bytes s => Except.ok (PyVal.bytes s)
  | .bool b => Except.ok (PyVal.bytes (if b then String.mk [Char.ofNat 0] else ""))
  | .int n =>
    if n < 0 then Except.error (PyError.valueError "negative count")
    else Except.ok (PyVal.bytes (String.mk (List.replicate n.toNat (Char.ofNat 0))))
  | v =>
    match iterElems v with
    | Option.some es =>
      match bytesFromInts es with
      | Except.ok s => Except.ok (PyVal.bytes s)
      | Except.error e => Except.error e
    | Option.none => Except.error (PyError.typeError ("cannot convert " ++ typeNameOfVal v ++ " object to bytes"))

/-- One element of a dict-update sequence, viewed as a key/value pair; a
non-sequence element is a `TypeError`, a sequence of length other than two
a `ValueError`, as in `dict(...)`. -/
def pairOf : PyVal → Except PyError (PyVal × PyVal)
  | .tuple [a, b] => Except.ok (a, b)
  | .list [a, b] => Except.ok (a, b)
  | .set [a, b] => Except.ok (a, b)
  | .frozenset [a, b] => Except.ok (a, b)
  | .deque [a, b] => Except.ok (a, b)
  | .tuple xs => Except.error (PyError.valueError ("dictionary update sequence element has length " ++ toString xs.length ++ "; 2 is required"))
  | .list xs => Except.error (PyError.valueError ("dictionary update sequence element has length " ++ toString xs.length ++ "; 2 is required"))
  | .set xs => Except.error (PyError.valueError ("dictionary update sequence element has length " ++ toString xs.length ++ "; 2 is required"))
  | .frozenset xs => Except.error (PyError.valueError ("dictionary update sequence element has length " ++ toString xs.length ++ "; 2 is required"))
  | .deque xs => Except.error (PyError.valueError ("dictionary update sequence element has length " ++ toString xs.length ++ "; 2 is required"))
  | .str s =>
    match s.data with
    | [a, b] => Except.ok (PyVal.str (String.mk [a]), PyVal.str (String.mk [b]))
    | cs => Except.error (PyError.valueError ("dictionary update sequence element has length " ++ toString cs.length ++ "; 2 is required"))
  | _ => Except.error (PyError.typeError "cannot convert dictionary update sequence element to a sequence")

/-- Folds a list of would-be pairs into a dict. -/
def dictFromSeq (acc : List (PyVal × PyVal)) : List PyVal → Except PyError (List (PyVal × PyVal))
  | [] => Except.ok acc
  | x :: xs =>
    match pairOf x with
    | Except.ok (k, v) => dictFromSeq (dictUpdate acc k v) xs
    | Except.error e => Except.error e

/-- The `dict` constructor on a value. -/
def dictCtor : PyVal → Except PyError PyVal
  | .dict kvs => Except.ok (PyVal.dict kvs)
  | .counter kvs => Except.ok (PyVal.dict kvs)
  | v =>
    match iterElems v with
    | Option.some es =>
      match dictFromSeq [] es with
      | Except.ok kvs => Except.ok (PyVal.dict kvs)
      | Except.error e => Except.error e
    | Option.none => Except.error (PyError.typeError (typeNameOfVal v ++ " object is not iterable"))

/-- Adds one occurrence of `k` to a counting association list. -/
def counterAdd (kvs : List (PyVal × PyVal)) (k : PyVal) : List (PyVal × PyVal) :=
  if kvs.any (fun kv => pvBeq kv.1 k) then
    kvs.map (fun kv =>
      if pvBeq kv.1 k then
        (kv.1, match kv.2 with
               | PyVal.int n => PyVal.int (n + 1)
               | v => v)
      else kv)
  else kvs ++ [(k, PyVal.int 1)]

/-- The `collections.Counter` constructor on a value: a mapping is copied,
any other iterable has its elements counted. -/
def counterCtor : PyVal → Except PyError PyVal
  | .dict kvs => Except.ok (PyVal.counter kvs)
  | .counter kvs => Except.ok (PyVal.counter kvs)
  | v =>
    match iterElems v with
    | Option.some es => Except.ok (PyVal.counter (es.foldl counterAdd []))
    | Option.none => Except.error (PyError.typeError (typeNameOfVal v ++ " object is not iterable"))

/-- Calling the (resolved, concrete) type on a value: the single-argument
constructor semantics of each supported type. Non-concrete `typing` forms
cannot be instantiated; `cast` never reaches them after resolution. -/
def ctor : PyType → PyVal → Except PyError PyVal
  | .bool, v => Except.ok (PyVal.bool (truthy v))
  | .int, v => intCtor v
  | .str, v => Except.ok (PyVal.str (pyStrOf v))
  | .bytes, v => bytesCtor v
  | .list, v =>
    match iterElems v with
    | Option.some es => Except.ok (PyVal.list es)
    | Option.none => Except.error (PyError.typeError (typeNameOfVal v ++ " object is not iterable"))
  | .tuple, v =>
    match iterElems v with
    | Option.some es => Except.ok (PyVal.tuple es)
    | Option.none => Except.error (PyError.typeError (typeNameOfVal v ++ " object is not iterable"))
  | .set, v =>
    match iterElems v with
    | Option.some es => Except.ok (PyVal.set (pvDedup es))
    | Option.none => Except.error (PyError.typeError (typeNameOfVal v ++ " object is not iterable"))
  | .frozenset, v =>
    match iterElems v with
    | Option.some es => Except.ok (PyVal.frozenset (pvDedup es))
    | Option.none => Except.error (PyError.typeError (typeNameOfVal v ++ " object is not iterable"))
  | .dict, v => dictCtor v
  | .counterType, v => counterCtor v
  | .dequeType, v =>
    match iterElems v with
    | Option.some es => Except.ok (PyVal.deque es)
    | Option.none => Except.error (PyError.typeError (typeNameOfVal v ++ " object is not iterable"))
  | _, _ => Except.error (PyError.typeError "typing form cannot be instantiated")

/-- The table `TYPING_TO_REGULAR_TYPE`: the `typing` aliases the library maps to
real types. -/
def typingToRegular : PyType → Option PyType
  | .anyStr => Option.some .str
  | .byteString => Option.some .bytes
  | .typingCounter => Option.some .counterType
  | .typingDeque => Option.some .dequeType
  | .typingDict => Option.some .dict
  | .typingFrozenSet => Option.some .frozenset
  | .typingList => Option.some .list
  | .typingSet => Option.some .set
  | .typingTuple => Option.some .tuple
  | _ => Option.none

/-- Models `_cast_typing_pep560`: a type in `TYPING_TO_REGULAR_TYPE` is replaced
by its real type, otherwise its `__origin__` is taken when it has one
(subscripted generics), otherwise the type is returned unchanged. -/
def _cast_typing_pep560 (wanted_type : PyType) : PyType :=
  match typingToRegular wanted_type with
  | Option.some regular => regular
  | Option.none =>
    match wanted_type with
    | .generic origin => origin
    | t => t

/-- The `while hasattr(wanted_type, "__supertype__")` loop of `cast`:
unwraps nested `NewType` aliases until a non-alias type is reached. -/
def resolveNewtype : PyType → PyType
  | .newtype _ t => resolveNewtype t
  | t => t

/-- Membership in `TYPES_THAT_NEED_TO_BE_PARSED = [bool, list, set, tuple, dict]`. -/
def needsParsing : PyType → Bool
  | .bool => true
  | .list => true
  | .set => true
  | .tuple => true
  | .dict => true
  | _ => false

/-- Models `cast(representation, wanted_type)`: unwrap `NewType` chains, map
`typing` types to real types (PEP 560 path, the one taken on supported
Python versions), then either parse the text as a literal and call the
constructor on the parsed value (for the types that need to be parsed,
skipping the parse when the representation is not a string) or call the
constructor directly on the representation. -/
def cast (representation : PyVal) (wanted_type : PyType) : Except PyError PyVal :=
  let unaliased := resolveNewtype wanted_type
  let resolved := _cast_typing_pep560 unaliased
  if needsParsing resolved then
    match representation with
    | .str s =>
      match literal_eval s with
      | Except.ok value => ctor resolved value
      | Except.error e => Except.error e
    | v => ctor resolved v
  else
    ctor resolved representation

/-- A source mapping (`os.environ`, `os.environb`, or any dict passed as a
variable source): lookup key to raw value. -/
def Source : Type := String → Option PyVal

/-- The `Variable` descriptor: lookup key, default (the `_NO_DEFAULT`
sentinel when absent), transform function (`cast` when not overridden) and
source mapping (`os.environ` when not overridden). -/
structure Variable where
  name : String
  default : PyVal
  transform : PyVal → PyType → Except PyError PyVal
  source : Source

/-- Identity with the `_NO_DEFAULT` sentinel object. -/
def isNoDefault : PyVal → Bool
  | .noDefault => true
  | _ => false

/-- The message of the required-and-missing `AttributeError`. Python puts
the variable name in quotes inside the message; the quotes are elided. -/
def missingMsg (name : String) : String :=
  "Configuration error: " ++ name ++ " is not set."

/-- The message of the cast-failure `ValueError` wrapper, naming the
offending lookup key and carrying the original cause. -/
def wrapMsg (name cause : String) : String :=
  "Invalid configuration for " ++ name ++ ": " ++ cause ++ "."

/-- Models `Variable.get`: fetch the key from the source; when absent fail with
`AttributeError` if the default is the sentinel and return the default
untouched otherwise; when present apply the transform, rewrapping
`ValueError` and `SyntaxError` (and only those) into a `ValueError`
naming the variable. -/
def Variable.get (v : Variable) (wanted_type : PyType) : Except PyError PyVal :=
  match v.source v.name with
  | Option.none =>
    if isNoDefault v.default then
      Except.error (PyError.attributeError (missingMsg v.name))
    else
      Except.ok v.default
  | Option.some raw_value =>
    match v.transform raw_value wanted_type with
    | Except.ok value => Except.ok value
    | Except.error (PyError.valueError m) =>
      Except.error (PyError.valueError (wrapMsg v.name m))
    | Except.error (PyError.syntaxError m) =>
      Except.error (PyError.valueError (wrapMsg v.name m))
    | Except.error e => Except.error e

/-- The `Autoload` lifecycle enum. -/
inductive Autoload where
  | CLASS
  | OBJECT
  | NEVER
  deriving Repr, DecidableEq

/-- The `_Options` dataclass: the metaclass keyword arguments recognised at
`Config` subclass creation. The `prefix` option is called `pfx` here. -/
structure _Options where
  pfx : Option String := Option.none
  autoload : Autoload := Autoload.CLASS
  deriving Repr, DecidableEq

/-- The keyword arguments of a `Config` subclass declaration, as
`__init_subclass__` receives them: for each recognised option name either
absence, an explicit `None`, or an explicit value; plus the unrecognised
names. -/
structure MetaKwargs where
  pfx : Option (Option String) := Option.none
  autoload : Option (Option Autoload) := Option.none
  unknown : List String := []
  deriving Repr, DecidableEq

/-- Models `_Options.from_metaclass_kwargs`: pop each dataclass field name from
the kwargs with default `None`, skip values that are `None`, build the
`_Options`. Unrecognised names are not popped and stay in the kwargs; with
only recognised field names in `options_kwargs` the dataclass constructor
cannot fail, so the `TypeError` rewrap branch of the source is
unreachable and the function is total. Returns the options together with
the kwargs as mutated by the pops. -/
def _Options.from_metaclass_kwargs (kw : MetaKwargs) : _Options × MetaKwargs :=
  let p : Option String :=
    match kw.pfx with
    | Option.some (Option.some v) => Option.some v
    | _ => Option.none
  let al : Autoload :=
    match kw.autoload with
    | Option.some (Option.some v) => v
    | _ => Autoload.CLASS
  (⟨p, al⟩, ⟨Option.none, Option.none, kw.unknown⟩)

/-- A nested configuration object (an instance of a `Config` subclass):
its own options and its resolved attribute values. `Config.load` passes
such values through untouched. -/
structure ConfigInst where
  options : _Options
  vals : List (String × PyVal)

/-- A class-body attribute value as `Config.load` dispatches on it: an
explicit `Variable` descriptor, a nested `Config` instance, or any other
value (an ordinary default, or the injected `_NO_DEFAULT` sentinel for
annotated attributes without a value). -/
inductive AttrVal where
  | var (v : Variable)
  | config (c : ConfigInst)
  | plain (v : PyVal)

/-- What `setattr` writes onto the target: a resolved value or a nested
configuration object. -/
inductive TargetVal where
  | val (v : PyVal)
  | config (c : ConfigInst)

/-- The observable outcome of a `Config.load` pass: the `setattr`
assignments performed in order, the lookup keys derived through the naming
scheme for attributes without an explicit descriptor, and the exception
that aborted the pass, if any. -/
structure LoadResult where
  assignments : List (String × TargetVal)
  derived : List String
  error : Option PyError

/-- Models `str.upper`, character by character. -/
def upperStr (s : String) : String := String.mk (s.data.map Char.toUpper)

/-- Models `attribute_name.startswith("_")`. -/
def startsWithUnderscore (s : String) : Bool :=
  match s.data with
  | c :: _ => c = '_'
  | [] => false

/-- The naming scheme of `Config.load` for attributes without an explicit
descriptor: `f"{prefix}_{attribute_name}".upper()` when the prefix is
truthy (not `None` and not empty), `attribute_name.upper()` otherwise. -/
def envVariableName (pfx : Option String) (attribute_name : String) : String :=
  match pfx with
  | Option.some p =>
    if p.isEmpty then upperStr attribute_name
    else upperStr (p ++ "_" ++ attribute_name)
  | Option.none => upperStr attribute_name

/-- The per-attribute loop of `Config.load` over the (merged) attribute
dictionary: private names are skipped; an explicit `Variable` is used as
is; a nested `Config` instance is written through unchanged; any other
value synthesises a `Variable` whose key comes from the naming scheme,
whose default is the attribute value, whose transform is `cast` and whose
source is the ambient environment. The annotated type (`str` when the
attribute has no annotation) is passed to `Variable.get`; an exception
aborts the loop, leaving earlier assignments in place. -/
def loadAttrs (pfx : Option String) (annotated : String → Option PyType) (env : Source) :
    List (String × AttrVal) → LoadResult
  | [] => ⟨[], [], Option.none⟩
  | (attribute_name, av) :: rest =>
    if startsWithUnderscore attribute_name then loadAttrs pfx annotated env rest
    else
      match av with
      | .var v =>
        match v.get ((annotated attribute_name).getD PyType.str) with
        | Except.ok value =>
          let r := loadAttrs pfx annotated env rest
          ⟨(attribute_name, TargetVal.val value) :: r.assignments, r.derived, r.error⟩
        | Except.error e => ⟨[], [], Option.some e⟩
      | .config c =>
        let r := loadAttrs pfx annotated env rest
        ⟨(attribute_name, TargetVal.config c) :: r.assignments, r.derived, r.error⟩
      | .plain d =>
        let key := envVariableName pfx attribute_name
        let v : Variable := ⟨key, d, cast, env⟩
        match v.get ((annotated attribute_name).getD PyType.str) with
        | Except.ok value =>
          let r := loadAttrs pfx annotated env rest
          ⟨(attribute_name, TargetVal.val value) :: r.assignments, key :: r.derived, r.error⟩
        | Except.error e => ⟨[], [key], Option.some e⟩

/-- First-annotation lookup. -/
def lookupAnnotated (annots : List (String × PyType)) (n : String) : Option PyType :=
  match annots.find? (fun a => a.1 == n) with
  | Option.some a => Option.some a.2
  | Option.none => Option.none

/-- The merge step of `Config.load`: annotated attributes without a value
in the class body are appended with the `_NO_DEFAULT` sentinel. -/
def mergeAttributes (attribute_dict : List (String × AttrVal)) (annots : List (String × PyType)) :
    List (String × AttrVal) :=
  attribute_dict ++
    (annots.filter (fun a => !(attribute_dict.any (fun b => b.1 == a.1)))).map
      (fun a => (a.1, AttrVal.plain PyVal.noDefault))

/-- Models `Config.load`: merge, then resolve every attribute. -/
def Config.load (opts : _Options) (attribute_dict : List (String × AttrVal))
    (annots : List (String × PyType)) (env : Source) : LoadResult :=
  loadAttrs opts.pfx (lookupAnnotated annots) env (mergeAttributes attribute_dict annots)

/-- The outcome of creating a `Config` subclass: the composed options and
the load outcome (empty when no load ran). -/
structure SubclassResult where
  options : _Options
  result : LoadResult

/-- Models `Config.__init_subclass__`: compose `_Options` from the metaclass
kwargs (which pops the recognised names), hand the remaining kwargs to
`super().__init_subclass__()` — `object.__init_subclass__` raises
`TypeError` when any keyword is left — and only then, when the autoload
mode is `CLASS`, run `Config.load` on the class. -/
def initSubclass (kw : MetaKwargs) (attribute_dict : List (String × AttrVal))
    (annots : List (String × PyType)) (env : Source) : SubclassResult :=
  let composed := _Options.from_metaclass_kwargs kw
  let opts := composed.1
  let remaining := composed.2
  if remaining.unknown.isEmpty then
    if opts.autoload = Autoload.CLASS then
      ⟨opts, Config.load opts attribute_dict annots env⟩
    else ⟨opts, ⟨[], [], Option.none⟩⟩
  else
    ⟨opts, ⟨[], [], Option.some (PyError.typeError "init_subclass takes no keyword arguments")⟩⟩

/-- The composite `_cast_typing_pep560 ∘ resolveNewtype`: the concrete type a declared
type resolves to inside `cast`. -/
def resolvedType (t : PyType) : PyType := _cast_typing_pep560 (resolveNewtype t)

/-- Whether a resolution outcome is the cast-failure `ValueError` the
specification calls InvalidValue. -/
def resultIsValueError : Except PyError PyVal → Bool
  | Except.error (PyError.valueError _) => true
  | _ => false

/-- Whether a load error is the `ValueError` the specification calls
InvalidOptions (the rewrap branch of `_Options.from_metaclass_kwargs`). -/
def isInvalidOptionsError : Option PyError → Bool
  | Option.some (PyError.valueError _) => true
  | _ => false

/-! Concrete fixtures used by witnesses and counterexamples. -/

/-- A source with `PORT` set to `"8080"`. -/
def srcPort : Source := fun k =>
  if k = "PORT" then Option.some (PyVal.str "8080") else Option.none

/-- The empty source. -/
def srcEmpty : Source := fun _ => Option.none

/-- A source with `Y` set to text that is not an integer. -/
def srcY : Source := fun k =>
  if k = "Y" then Option.some (PyVal.str "notanint") else Option.none

/-- A source with `X` set to `"abc"` (used with a `bytes` annotation). -/
def srcX : Source := fun k =>
  if k = "X" then Option.some (PyVal.str "abc") else Option.none

/-- A variable that resolves `X` with the default transform. -/
def varX : Variable := ⟨"X", PyVal.noDefault, cast, srcX⟩

/-- A variable that resolves `Y` with the default transform. -/
def varY : Variable := ⟨"Y", PyVal.noDefault, cast, srcY⟩

/-- A source with `TEST_KEY` set to `"42"`. -/
def srcTest : Source := fun k =>
  if k = "TEST_KEY" then Option.some (PyVal.str "42") else Option.none

/-- A custom per-field transform that doubles the raw text, as the
`lambda v, wt: v * 2` descriptor of the repository's own test suite. -/
def doubler (raw : PyVal) (_ : PyType) : Except PyError PyVal :=
  match raw with
  | PyVal.str s => Except.ok (PyVal.str (s ++ s))
  | v => Except.ok v

/-- An explicit descriptor with no default and a custom transform. -/
def varDoubler : Variable := ⟨"TEST_KEY", PyVal.noDefault, doubler, srcTest⟩

/-- Two sources that agree everywhere except at key `"K2"`. -/
def srcA : Source := fun k =>
  if k = "K2" then Option.some (PyVal.str "left")
  else if k = "K1" then Option.some (PyVal.str "7") else Option.none

def srcB : Source := fun k =>
  if k = "K2" then Option.some (PyVal.str "right")
  else if k = "K1" then Option.some (PyVal.str "7") else Option.none

/-- A resolved nested configuration instance with its own prefix. -/
def nestedInst : ConfigInst :=
  ⟨⟨Option.some "nested", Autoload.CLASS⟩, [("boolean", PyVal.bool false)]⟩

/-! Helper lemmas about `Variable.get` and the load pass. -/

theorem Variable.get_absent_default (v : Variable) (ty : PyType)
    (hsrc : v.source v.name = Option.none) (hdef : isNoDefault v.default = false) :
    v.get ty = Except.ok v.default := by
  unfold Variable.get
  rw [hsrc, hdef]
  simp

theorem Variable.get_absent_required (v : Variable) (ty : PyType)
    (hsrc : v.source v.name = Option.none) (hdef : isNoDefault v.default = true) :
    v.get ty = Except.error (PyError.attributeError (missingMsg v.name)) := by
  unfold Variable.get
  rw [hsrc, hdef]
  simp

theorem Variable.get_present_ok (v : Variable) (ty : PyType) (raw value : PyVal)
    (hsrc : v.source v.name = Option.some raw)
    (ht : v.transform raw ty = Except.ok value) :
    v.get ty = Except.ok value := by
  unfold Variable.get
  rw [hsrc]
  simp [ht]

/-- A load pass whose first section succeeds processes an appended section
independently, keeping the first section's assignments and derived keys in
front. -/
theorem loadAttrs_append (pfx : Option String) (a : String → Option PyType) (env : Source)
    (l₁ l₂ : List (String × AttrVal))
    (h : (loadAttrs pfx a env l₁).error = Option.none) :
    loadAttrs pfx a env (l₁ ++ l₂) =
      ⟨(loadAttrs pfx a env l₁).assignments ++ (loadAttrs pfx a env l₂).assignments,
       (loadAttrs pfx a env l₁).derived ++ (loadAttrs pfx a env l₂).derived,
       (loadAttrs pfx a env l₂).error⟩ := by
  induction l₁ with
  | nil => simp [loadAttrs]
  | cons hd t ih =>
    obtain ⟨name, av⟩ := hd
    cases hp : startsWithUnderscore name with
    | true =>
      simp only [List.cons_append, loadAttrs, hp, if_true, List.append_eq] at h ⊢
      exact ih h
    | false =>
      cases av with
      | var v =>
        simp only [List.cons_append, loadAttrs, hp, Bool.false_eq_true, if_false, List.append_eq] at h ⊢
        cases hv : Variable.get v ((a name).getD PyType.str) with
        | ok value =>
          simp only [hv] at h ⊢
          rw [ih h]
          rfl
        | error e => simp [hv] at h
      | config c =>
        simp only [List.cons_append, loadAttrs, hp, Bool.false_eq_true, if_false, List.append_eq] at h ⊢
        rw [ih h]
      | plain d =>
        simp only [List.cons_append, loadAttrs, hp, Bool.false_eq_true, if_false, List.append_eq] at h ⊢
        cases hv : Variable.get ⟨envVariableName pfx name, d, cast, env⟩ ((a name).getD PyType.str) with
        | ok value =>
          simp only [hv] at h ⊢
          rw [ih h]
          rfl
        | error e => simp [hv] at h

/-- C2: for every raw string, a declared type resolving (through alias
unwrapping and `typing` mapping) to one of the parsed types
`bool`/`list`/`set`/`tuple`/`dict` makes `cast` parse the text as a safe
structured literal and hand the parsed value to the resolved constructor,
while every other resolved type gets its single-argument constructor
called directly on the raw string; in particular `cast "False" bool` is
the boolean `False` and `cast "[1, 2, 3]" list` is the three-element list
`[1, 2, 3]`. -/
theorem c2_parse_dispatch :
    (∀ (s : String) (t : PyType),
        cast (PyVal.str s) t =
          if needsParsing (resolvedType t) then
            match literal_eval s with
            | Except.ok value => ctor (resolvedType t) value
            | Except.error e => Except.error e
          else ctor (resolvedType t) (PyVal.str s))
    ∧ cast (PyVal.str "False") PyType.bool = Except.ok (PyVal.bool false)
    ∧ cast (PyVal.str "[1, 2, 3]") PyType.list
        = Except.ok (PyVal.list [PyVal.int 1, PyVal.int 2, PyVal.int 3]) :=
  ⟨fun _ _ => rfl, rfl, rfl⟩

/-- C6: alias-chain unwrapping terminates and is depth-independent: for
any finite chain of `NewType` aliases wrapped around a type, `cast`
behaves exactly as on the underlying type, for every raw value; in
particular `Id(Integer(int))` and `int` coerce identically. -/
theorem c6_alias_chain_depth_independent :
    (∀ (aliases : List String) (t : PyType) (raw : PyVal),
        cast raw (aliases.foldr PyType.newtype t) = cast raw t)
    ∧ cast (PyVal.str "2") (PyType.newtype "Id" (PyType.newtype "Integer" PyType.int))
        = cast (PyVal.str "2") PyType.int := by
  have key : ∀ (aliases : List String) (t : PyType),
      resolveNewtype (aliases.foldr PyType.newtype t) = resolveNewtype t := by
    intro aliases t
    induction aliases with
    | nil => rfl
    | cons hd rest ih =>
      rw [List.foldr_cons]
      exact ih
  refine ⟨fun aliases t raw => ?_, rfl⟩
  unfold cast
  rw [key]

/-- C10: an option explicitly supplied as `None` at schema declaration is
treated exactly as an omitted option: for each recognised option name
(`prefix`, `autoload`), `_Options.from_metaclass_kwargs` produces the same
outcome for an explicit `None` as for absence, and with both options
`None` the built-in defaults (no prefix, autoload on class creation)
apply. -/
theorem c10_none_means_omitted :
    ∀ kw : MetaKwargs,
      _Options.from_metaclass_kwargs { kw with pfx := Option.some Option.none }
        = _Options.from_metaclass_kwargs { kw with pfx := Option.none }
      ∧ _Options.from_metaclass_kwargs { kw with autoload := Option.some Option.none }
        = _Options.from_metaclass_kwargs { kw with autoload := Option.none }
      ∧ (_Options.from_metaclass_kwargs
          ⟨Option.some Option.none, Option.some Option.none, kw.unknown⟩).1
        = { pfx := Option.none, autoload := Autoload.CLASS } :=
  fun _ => ⟨rfl, rfl, rfl⟩

/-- C3: a field whose effective default is not the `_NO_DEFAULT` sentinel
and whose lookup key is absent from the source resolves to exactly that
default, unchanged and uncoerced — for every annotated type and every
default value, including type-mismatched ones, and (second part) for an
explicit descriptor with an arbitrary transform, which is never applied.
Earlier fields of the pass are untouched and later fields resolve
normally. -/
theorem c3_absent_key_returns_default_uncoerced :
    (∀ (pfx : Option String) (a : String → Option PyType) (env : Source)
        (l₁ l₂ : List (String × AttrVal)) (name : String) (d : PyVal),
        (loadAttrs pfx a env l₁).error = Option.none →
        startsWithUnderscore name = false →
        isNoDefault d = false →
        env (envVariableName pfx name) = Option.none →
        loadAttrs pfx a env (l₁ ++ (name, AttrVal.plain d) :: l₂) =
          ⟨(loadAttrs pfx a env l₁).assignments
             ++ (name, TargetVal.val d) :: (loadAttrs pfx a env l₂).assignments,
           (loadAttrs pfx a env l₁).derived
             ++ envVariableName pfx name :: (loadAttrs pfx a env l₂).derived,
           (loadAttrs pfx a env l₂).error⟩)
    ∧ (∀ (pfx : Option String) (a : String → Option PyType) (env : Source)
        (l₁ l₂ : List (String × AttrVal)) (name : String) (v : Variable),
        (loadAttrs pfx a env l₁).error = Option.none →
        startsWithUnderscore name = false →
        v.source v.name = Option.none →
        isNoDefault v.default = false →
        loadAttrs pfx a env (l₁ ++ (name, AttrVal.var v) :: l₂) =
          ⟨(loadAttrs pfx a env l₁).assignments
             ++ (name, TargetVal.val v.default) :: (loadAttrs pfx a env l₂).assignments,
           (loadAttrs pfx a env l₁).derived ++ (loadAttrs pfx a env l₂).derived,
           (loadAttrs pfx a env l₂).error⟩) := by
  constructor
  · intro pfx a env l₁ l₂ name d h1 hp hd hsrc
    rw [loadAttrs_append pfx a env l₁ _ h1]
    have hget : Variable.get ⟨envVariableName pfx name, d, cast, env⟩ ((a name).getD PyType.str)
        = Except.ok d :=
      Variable.get_absent_default _ _ hsrc hd
    simp only [loadAttrs, hp, Bool.false_eq_true, if_false, hget]
  · intro pfx a env l₁ l₂ name v h1 hp hsrc hd
    rw [loadAttrs_append pfx a env l₁ _ h1]
    have hget : v.get ((a name).getD PyType.str) = Except.ok v.default :=
      Variable.get_absent_default _ _ hsrc hd
    simp only [loadAttrs, hp, Bool.false_eq_true, if_false, hget]

/-- C4: a field whose lookup key is absent from the source and whose
effective default is the `_NO_DEFAULT` sentinel makes resolution fail with
the required-and-missing `AttributeError` (the specification's
MissingRequiredValue); the error surfaces immediately and aborts the
whole pass — the result keeps only the assignments of the fields before
the failing one and does not depend on the fields after it. Both the
synthesized-descriptor path (first part) and an explicit descriptor with
sentinel default (second part) are covered. -/
theorem c4_missing_required_fails_fast :
    (∀ (pfx : Option String) (a : String → Option PyType) (env : Source)
        (l₁ l₂ : List (String × AttrVal)) (name : String),
        (loadAttrs pfx a env l₁).error = Option.none →
        startsWithUnderscore name = false →
        env (envVariableName pfx name) = Option.none →
        loadAttrs pfx a env (l₁ ++ (name, AttrVal.plain PyVal.noDefault) :: l₂) =
          ⟨(loadAttrs pfx a env l₁).assignments,
           (loadAttrs pfx a env l₁).derived ++ [envVariableName pfx name],
           Option.some (PyError.attributeError (missingMsg (envVariableName pfx name)))⟩)
    ∧ (∀ (pfx : Option String) (a : String → Option PyType) (env : Source)
        (l₁ l₂ : List (String × AttrVal)) (name : String) (v : Variable),
        (loadAttrs pfx a env l₁).error = Option.none →
        startsWithUnderscore name = false →
        v.source v.name = Option.none →
        isNoDefault v.default = true →
        loadAttrs pfx a env (l₁ ++ (name, AttrVal.var v) :: l₂) =
          ⟨(loadAttrs pfx a env l₁).assignments,
           (loadAttrs pfx a env l₁).derived,
           Option.some (PyError.attributeError (missingMsg v.name))⟩) := by
  constructor
  · intro pfx a env l₁ l₂ name h1 hp hsrc
    rw [loadAttrs_append pfx a env l₁ _ h1]
    have hget : Variable.get ⟨envVariableName pfx name, PyVal.noDefault, cast, env⟩
        ((a name).getD PyType.str)
        = Except.error (PyError.attributeError (missingMsg (envVariableName pfx name))) :=
      Variable.get_absent_required _ _ hsrc rfl
    simp only [loadAttrs, hp, Bool.false_eq_true, if_false, hget, List.append_nil]
  · intro pfx a env l₁ l₂ name v h1 hp hsrc hd
    rw [loadAttrs_append pfx a env l₁ _ h1]
    have hget : v.get ((a name).getD PyType.str)
        = Except.error (PyError.attributeError (missingMsg v.name)) :=
      Variable.get_absent_required _ _ hsrc hd
    simp only [loadAttrs, hp, Bool.false_eq_true, if_false, hget, List.append_nil]

/-- C1 (amended): for every field without an explicit descriptor — whose
transform is therefore the default `cast` and whose lookup key derives
from the naming scheme — if the lookup key is present in the source with
raw value `raw` and `cast raw declaredType` succeeds, the value written
onto the target is exactly that cast result, where the declared type is
the field's annotation when present and `str` otherwise. (A field carrying
an explicit descriptor resolves through the descriptor's transform, which
need not agree with `cast`; see the counterexample.) -/
theorem c1_implicit_field_resolves_to_cast
    (pfx : Option String) (a : String → Option PyType) (env : Source)
    (l₁ l₂ : List (String × AttrVal)) (name : String) (d raw value : PyVal)
    (h1 : (loadAttrs pfx a env l₁).error = Option.none)
    (hp : startsWithUnderscore name = false)
    (hsrc : env (envVariableName pfx name) = Option.some raw)
    (hcast : cast raw ((a name).getD PyType.str) = Except.ok value) :
    loadAttrs pfx a env (l₁ ++ (name, AttrVal.plain d) :: l₂) =
      ⟨(loadAttrs pfx a env l₁).assignments
         ++ (name, TargetVal.val value) :: (loadAttrs pfx a env l₂).assignments,
       (loadAttrs pfx a env l₁).derived
         ++ envVariableName pfx name :: (loadAttrs pfx a env l₂).derived,
       (loadAttrs pfx a env l₂).error⟩ := by
  rw [loadAttrs_append pfx a env l₁ _ h1]
  have hget : Variable.get ⟨envVariableName pfx name, d, cast, env⟩ ((a name).getD PyType.str)
      = Except.ok value :=
    Variable.get_present_ok _ _ raw value hsrc hcast
  simp only [loadAttrs, hp, Bool.false_eq_true, if_false, hget]

/-- C1 (counterexample): the claim quantifies over every field with no
explicit descriptor default, which includes fields carrying an explicit
descriptor with a custom transform and no default. Such a field (the
repository's own `var1b` test: `Variable("TEST_KEY", transform=λ v, wt:
v * 2)` with source value `"42"` and annotation `str`) is written as
`"4242"`, while `coerce("42", str)` is `"42"`. -/
theorem c1_counterexample :
    (loadAttrs Option.none (fun _ => Option.some PyType.str) srcTest
        [("var1b", AttrVal.var varDoubler)]).assignments
      = [("var1b", TargetVal.val (PyVal.str "4242"))]
    ∧ cast (PyVal.str "42") PyType.str = Except.ok (PyVal.str "42")
    ∧ PyVal.str "4242" ≠ PyVal.str "42" :=
  ⟨rfl, rfl, by simp⟩

/-- C1 (witness): the amended theorem applied to the field `port : int`
with source `PORT = "8080"`. -/
theorem c1_witness :
    loadAttrs Option.none (fun _ => Option.some PyType.int) srcPort
        [("port", AttrVal.plain PyVal.noDefault)]
      = ⟨[("port", TargetVal.val (PyVal.int 8080))], ["PORT"], Option.none⟩ :=
  c1_implicit_field_resolves_to_cast Option.none (fun _ => Option.some PyType.int) srcPort
    [] [] "port" PyVal.noDefault (PyVal.str "8080") (PyVal.int 8080) rfl rfl rfl rfl

/-- C5 (amended): when the lookup key is present, a transform failure of
kind `ValueError` or `SyntaxError` is rewrapped as a `ValueError` whose
message names the offending lookup key (the specification's
InvalidValue); a transform failure of any other kind — `TypeError`, as a
constructor rejecting the value's type raises — escapes unwrapped. -/
theorem c5_transform_failure_wrapping :
    ∀ (v : Variable) (ty : PyType) (raw : PyVal),
      v.source v.name = Option.some raw →
      (∀ m, v.transform raw ty = Except.error (PyError.valueError m) →
        v.get ty = Except.error (PyError.valueError (wrapMsg v.name m)))
      ∧ (∀ m, v.transform raw ty = Except.error (PyError.syntaxError m) →
        v.get ty = Except.error (PyError.valueError (wrapMsg v.name m)))
      ∧ (∀ m, v.transform raw ty = Except.error (PyError.typeError m) →
        v.get ty = Except.error (PyError.typeError m)) := by
  intro v ty raw hsrc
  refine ⟨fun m hm => ?_, fun m hm => ?_, fun m hm => ?_⟩ <;>
    · unfold Variable.get
      rw [hsrc]
      simp [hm]

/-- C5 (counterexample): the claim says no raw failure from the transform
escapes unwrapped, but `Variable.get` only catches `ValueError` and
`SyntaxError`. With source value `"abc"` under a `bytes` annotation, the
default transform raises `TypeError` (a string argument needs an
encoding), and resolution surfaces that raw `TypeError` — not a wrapped
InvalidValue naming the key. -/
theorem c5_counterexample :
    cast (PyVal.str "abc") PyType.bytes
        = Except.error (PyError.typeError "string argument without an encoding")
    ∧ varX.get PyType.bytes
        = Except.error (PyError.typeError "string argument without an encoding")
    ∧ resultIsValueError (varX.get PyType.bytes) = false :=
  ⟨rfl, rfl, rfl⟩

/-- C5 (witness): the amended theorem applied to `Y = "notanint"` under an
`int` annotation: the `ValueError` of the `int` constructor is rewrapped
into a `ValueError` naming `Y`. -/
theorem c5_witness :
    varY.get PyType.int
      = Except.error (PyError.valueError
          (wrapMsg "Y" "invalid literal for int with base 10: notanint")) :=
  (c5_transform_failure_wrapping varY PyType.int (PyVal.str "notanint") rfl).1
    "invalid literal for int with base 10: notanint" rfl

/-- A `Variable.get` call consults its source only at its own lookup key. -/
theorem Variable.get_congr_source (n : String) (d : PyVal)
    (tr : PyVal → PyType → Except PyError PyVal) (s1 s2 : Source) (ty : PyType)
    (h : s1 n = s2 n) :
    Variable.get ⟨n, d, tr, s1⟩ ty = Variable.get ⟨n, d, tr, s2⟩ ty := by
  unfold Variable.get
  simp only
  rw [h]

/-- C7: a field carrying an explicit descriptor with lookup key `K1`
consults only `K1` in the source: for any two sources that agree
everywhere except at a different key `K2`, the whole resolution pass
produces the same result, wherever the field sits in the schema. -/
theorem c7_explicit_key_dominates
    (pfx : Option String) (a : String → Option PyType) (env : Source)
    (l₁ l₂ : List (String × AttrVal)) (name K1 K2 : String) (d : PyVal)
    (tr : PyVal → PyType → Except PyError PyVal) (s1 s2 : Source)
    (hne : K1 ≠ K2) (hagree : ∀ k, k ≠ K2 → s1 k = s2 k) :
    loadAttrs pfx a env (l₁ ++ (name, AttrVal.var ⟨K1, d, tr, s1⟩) :: l₂) =
      loadAttrs pfx a env (l₁ ++ (name, AttrVal.var ⟨K1, d, tr, s2⟩) :: l₂) := by
  have hget : Variable.get ⟨K1, d, tr, s1⟩ ((a name).getD PyType.str)
      = Variable.get ⟨K1, d, tr, s2⟩ ((a name).getD PyType.str) :=
    Variable.get_congr_source K1 d tr s1 s2 _ (hagree K1 hne)
  induction l₁ with
  | nil =>
    simp only [List.nil_append, loadAttrs]
    rw [hget]
  | cons hd t ih =>
    obtain ⟨n2, av2⟩ := hd
    cases hp2 : startsWithUnderscore n2 with
    | true =>
      simp only [List.cons_append, loadAttrs, hp2, if_true]
      exact ih
    | false =>
      cases av2 with
      | var w =>
        simp only [List.cons_append, loadAttrs, hp2, Bool.false_eq_true, if_false, List.append_eq]
        cases hw : w.get ((a n2).getD PyType.str) with
        | ok value => rw [ih]
        | error e => rfl
      | config c =>
        simp only [List.cons_append, loadAttrs, hp2, Bool.false_eq_true, if_false, List.append_eq]
        rw [ih]
      | plain d2 =>
        simp only [List.cons_append, loadAttrs, hp2, Bool.false_eq_true, if_false, List.append_eq]
        cases hw : Variable.get ⟨envVariableName pfx n2, d2, cast, env⟩ ((a n2).getD PyType.str) with
        | ok value => rw [ih]
        | error e => rfl

/-- C7 (witness): the non-interference theorem at the concrete descriptor
`Variable("K1")` over two sources that differ only at `K2`. -/
theorem c7_witness :
    loadAttrs Option.none (fun _ => Option.some PyType.int) srcEmpty
        [("field", AttrVal.var ⟨"K1", PyVal.noDefault, cast, srcA⟩)] =
      loadAttrs Option.none (fun _ => Option.some PyType.int) srcEmpty
        [("field", AttrVal.var ⟨"K1", PyVal.noDefault, cast, srcB⟩)] :=
  c7_explicit_key_dominates Option.none (fun _ => Option.some PyType.int) srcEmpty
    [] [] "field" "K1" "K2" PyVal.noDefault cast srcA srcB
    (by decide)
    (by
      intro k hk
      simp [srcA, srcB, hk])

/-- C8: a field whose value is a nested `Config` instance is written onto
the target as that very object — it is never handed to `cast` nor to any
transform (the pass records no derived key and no resolution for it), and
the rest of the pass is unaffected. Second part: every lookup key a load
pass derives through the naming scheme comes from its own options' prefix
and its own field names, so a nested schema resolving under its own
`_Options` derives keys from its own prefix only — the parent's prefix
cannot leak in. -/
theorem c8_nested_config_passthrough :
    (∀ (pfx : Option String) (a : String → Option PyType) (env : Source)
        (name : String) (c : ConfigInst) (rest : List (String × AttrVal)),
        startsWithUnderscore name = false →
        loadAttrs pfx a env ((name, AttrVal.config c) :: rest) =
          ⟨(name, TargetVal.config c) :: (loadAttrs pfx a env rest).assignments,
           (loadAttrs pfx a env rest).derived,
           (loadAttrs pfx a env rest).error⟩)
    ∧ (∀ (pfx : Option String) (a : String → Option PyType) (env : Source)
        (attrs : List (String × AttrVal)),
        List.Sublist (loadAttrs pfx a env attrs).derived
          (attrs.map (fun x => envVariableName pfx x.1))) := by
  constructor
  · intro pfx a env name c rest hp
    simp only [loadAttrs, hp, Bool.false_eq_true, if_false]
  · intro pfx a env attrs
    induction attrs with
    | nil => exact List.nil_sublist _
    | cons hd t ih =>
      obtain ⟨n2, av2⟩ := hd
      cases hp2 : startsWithUnderscore n2 with
      | true =>
        simp only [loadAttrs, hp2, if_true, List.map_cons]
        exact List.Sublist.cons _ ih
      | false =>
        cases av2 with
        | var w =>
          simp only [loadAttrs, hp2, Bool.false_eq_true, if_false, List.map_cons]
          cases hw : w.get ((a n2).getD PyType.str) with
          | ok value => exact List.Sublist.cons _ ih
          | error e => exact List.nil_sublist _
        | config c =>
          simp only [loadAttrs, hp2, Bool.false_eq_true, if_false, List.map_cons]
          exact List.Sublist.cons _ ih
        | plain d2 =>
          simp only [loadAttrs, hp2, Bool.false_eq_true, if_false, List.map_cons]
          cases hw : Variable.get ⟨envVariableName pfx n2, d2, cast, env⟩ ((a n2).getD PyType.str) with
          | ok value => exact List.Sublist.cons₂ _ ih
          | error e => exact List.Sublist.cons₂ _ (List.nil_sublist _)

/-- C8 (witness): the passthrough part applied to a nested instance with
its own prefix, under a parent pass with a different prefix. -/
theorem c8_witness :
    loadAttrs (Option.some "app") (fun _ => Option.none) srcEmpty
        [("Nested", AttrVal.config nestedInst)] =
      ⟨[("Nested", TargetVal.config nestedInst)], [], Option.none⟩ :=
  c8_nested_config_passthrough.1 (Option.some "app") (fun _ => Option.none) srcEmpty
    "Nested" nestedInst [] rfl

/-- C9 (amended): supplying an unrecognised option name at schema
declaration does not raise during options composition —
`_Options.from_metaclass_kwargs` only pops the recognised names, leaves
unknown ones in the kwargs and returns normally — but the leftover
keyword then makes `object.__init_subclass__` raise `TypeError`, after
the options are composed and before any field of the schema is resolved:
the pass performs no assignment, derives no key, and applies no
coercion. -/
theorem c9_unknown_option_typeerror
    (kw : MetaKwargs) (attribute_dict : List (String × AttrVal))
    (annots : List (String × PyType)) (env : Source)
    (h : kw.unknown ≠ []) :
    initSubclass kw attribute_dict annots env =
      ⟨(_Options.from_metaclass_kwargs kw).1,
       ⟨[], [], Option.some (PyError.typeError "init_subclass takes no keyword arguments")⟩⟩ := by
  unfold initSubclass
  have hne : kw.unknown.isEmpty = false := by
    cases hu : kw.unknown with
    | nil => exact absurd hu h
    | cons x xs => rfl
  simp only [_Options.from_metaclass_kwargs, hne, Bool.false_eq_true, if_false]

/-- C9 (counterexample): the claim, as stated, says an unrecognised option
raises an InvalidOptions error at options-composition time. On this code,
options composition itself succeeds (the unknown name is simply not
popped), and the error that aborts class creation is the `TypeError` of
the superclass hook, not the `ValueError` the source labels invalid
options — that rewrap branch is unreachable for unknown names. The
"before any field resolution" half of the claim does hold. -/
theorem c9_counterexample :
    _Options.from_metaclass_kwargs ⟨Option.none, Option.none, ["wrong_option"]⟩
        = (⟨Option.none, Autoload.CLASS⟩, ⟨Option.none, Option.none, ["wrong_option"]⟩)
    ∧ (initSubclass ⟨Option.none, Option.none, ["wrong_option"]⟩
          [("x", AttrVal.plain PyVal.noDefault)] [("x", PyType.int)] srcEmpty).result.error
        = Option.some (PyError.typeError "init_subclass takes no keyword arguments")
    ∧ isInvalidOptionsError
        (initSubclass ⟨Option.none, Option.none, ["wrong_option"]⟩
          [("x", AttrVal.plain PyVal.noDefault)] [("x", PyType.int)] srcEmpty).result.error
        = false
    ∧ (initSubclass ⟨Option.none, Option.none, ["wrong_option"]⟩
          [("x", AttrVal.plain PyVal.noDefault)] [("x", PyType.int)] srcEmpty).result.assignments
        = [] :=
  ⟨rfl, rfl, rfl, rfl⟩

/-- C9 (witness): the amended theorem at a concrete unknown option. -/
theorem c9_witness :
    initSubclass ⟨Option.none, Option.none, ["wrong_option"]⟩
        [("x", AttrVal.plain PyVal.noDefault)] [("x", PyType.int)] srcEmpty =
      ⟨⟨Option.none, Autoload.CLASS⟩,
       ⟨[], [], Option.some (PyError.typeError "init_subclass takes no keyword arguments")⟩⟩ :=
  c9_unknown_option_typeerror ⟨Option.none, Option.none, ["wrong_option"]⟩
    [("x", AttrVal.plain PyVal.noDefault)] [("x", PyType.int)] srcEmpty (by simp)

/-- C3 (witness): the first part of the default-passthrough theorem at the
field `count : int` with default `5` and an empty source. -/
theorem c3_witness :
    loadAttrs Option.none (fun _ => Option.some PyType.int) srcEmpty
        [("count", AttrVal.plain (PyVal.int 5))]
      = ⟨[("count", TargetVal.val (PyVal.int 5))], ["COUNT"], Option.none⟩ :=
  c3_absent_key_returns_default_uncoerced.1 Option.none (fun _ => Option.some PyType.int)
    srcEmpty [] [] "count" (PyVal.int 5) rfl rfl rfl rfl

/-- C4 (witness): the first part of the fail-fast theorem at the required
field `x : int` with an empty source; a later field is present in the
schema and is not resolved. -/
theorem c4_witness :
    loadAttrs Option.none (fun _ => Option.some PyType.int) srcEmpty
        [("x", AttrVal.plain PyVal.noDefault), ("bool_var", AttrVal.plain (PyVal.bool false))]
      = ⟨[], ["X"], Option.some (PyError.attributeError (missingMsg "X"))⟩ :=
  c4_missing_required_fails_fast.1 Option.none (fun _ => Option.some PyType.int)
    srcEmpty [] [("bool_var", AttrVal.plain (PyVal.bool false))] "x" rfl rfl rfl

end Ecological
